import Mathlib

/-!
# Verification of the OpenOA Monte Carlo AEP engine

Shallow embedding of `operational_analysis/methods/plant_analysis_v3.py`
(class `MonteCarloAEP`).  Machine floats are modelled by `ℚ` for the
arithmetic pipeline and by `ℝ` for the trigonometric wind-direction
derivation.  Randomness (numpy draws, pandas `sample`) is modelled by
explicit oracle inputs: each random primitive becomes a function argument
holding the values the generator produced, so that the data flow of the
program is captured exactly while the distributions are abstracted away.

The generic toolkit primitives (`filters.range_flag`,
`filters.unresponsive_flag`) live outside the provided sources; the spec
declares them external pure functions.  `range_flag` is modelled from the
spec's words; the unresponsive/frozen filter is passed in as an opaque
function argument.
-/

set_option maxHeartbeats 1000000
set_option maxRecDepth 100000

/-- A calendar date key as pandas exposes it through `index.month` /
`index.day` (1-based month and day). -/
structure Date where
  month : ℕ
  day : ℕ
deriving DecidableEq, Repr

/-- One row of the `_monthly_daily.df` operating table, holding the columns
the analysed methods read.  Per-reanalysis-product wind speed columns are
modelled by the function `ws` from product name to the density-corrected
wind speed stored in that product's column. -/
structure OperatingRow where
  date : Date
  energy_gwh : ℚ
  availability_gwh : ℚ
  curtailment_gwh : ℚ
  availability_pct : ℚ
  curtailment_pct : ℚ
  nan_flag : Bool
  availability_typical : Bool
  curtailment_typical : Bool
  num_days_expected : ℚ
  ws : String → ℚ

/-- Mean of a list of rationals (`pandas` mean).  For the groups built
below the list is always nonempty. -/
def listMean (xs : List ℚ) : ℚ := xs.sum / (xs.length : ℚ)

/-- `pandas` `groupby(keys).mean()` for a column: the result is indexed by
the distinct keys in ascending order.  The candidate key lists used in this
development (`monthsList`, `calendarDays`) are sorted and duplicate-free
and contain every key a valid date can produce, so filtering them by
presence yields exactly the sorted distinct keys of the data. -/
def groupMeans {K : Type} [DecidableEq K] (keys : List K) (xs : List (K × ℚ)) :
    List (K × ℚ) :=
  (keys.filter (fun k => xs.any (fun p => decide (p.1 = k)))).map
    (fun k => (k, listMean ((xs.filter (fun p => decide (p.1 = k))).map Prod.snd)))

/-- Calendar months in the order pandas sorts month keys. -/
def monthsList : List ℕ := [1, 2, 3, 4, 5, 6, 7, 8, 9, 10, 11, 12]

/-- Days in each calendar month of a leap year (so that Feb 29 is a valid
day-of-year key), used to enumerate the 366 possible `(month, day)` keys. -/
def daysInMonthLeap (m : ℕ) : ℕ :=
  [31, 29, 31, 30, 31, 30, 31, 31, 30, 31, 30, 31].getD (m - 1) 0

/-- All 366 valid `(month, day)` keys in the lexicographic order pandas
sorts grouped day-of-year keys. -/
def calendarDays : List (ℕ × ℕ) :=
  monthsList.flatMap (fun m => (List.range (daysInMonthLeap m)).map (fun d => (m, d + 1)))

/-- `self.num_days_lt` from `__init__` (line 100): long-term days per
calendar month, February averaged over leap years. -/
def num_days_lt : List ℚ := [31, 28.25, 31, 30, 31, 30, 31, 31, 30, 31, 30, 31]

/-- `days_year_lt` from `calculate_long_term_losses` (line 589). -/
def days_year_lt : ℚ := 365.25

/-- `avail_valid` (line 592): the (date, availability %) pairs of the rows
flagged as representative of typical availability. -/
def availValid (df : List OperatingRow) : List (Date × ℚ) :=
  (df.filter (fun r => r.availability_typical)).map (fun r => (r.date, r.availability_pct))

/-- `curt_valid` (line 593). -/
def curtValid (df : List OperatingRow) : List (Date × ℚ) :=
  (df.filter (fun r => r.curtailment_typical)).map (fun r => (r.date, r.curtailment_pct))

/-- `avail_long_term` (line 598): average availability % by calendar
month. -/
def availLongTermM (df : List OperatingRow) : List (ℕ × ℚ) :=
  groupMeans monthsList ((availValid df).map (fun p => (p.1.month, p.2)))

/-- `curt_long_term` (line 599). -/
def curtLongTermM (df : List OperatingRow) : List (ℕ × ℚ) :=
  groupMeans monthsList ((curtValid df).map (fun p => (p.1.month, p.2)))

/-- `avail_long_term` (line 623): average availability % by calendar
(month, day). -/
def availLongTermD (df : List OperatingRow) : List ((ℕ × ℕ) × ℚ) :=
  groupMeans calendarDays ((availValid df).map (fun p => ((p.1.month, p.1.day), p.2)))

/-- `curt_long_term` (line 624). -/
def curtLongTermD (df : List OperatingRow) : List ((ℕ × ℕ) × ℚ) :=
  groupMeans calendarDays ((curtValid df).map (fun p => ((p.1.month, p.1.day), p.2)))

/-- `calculate_long_term_losses` (lines 574-641): long-term annual
availability and curtailment loss fractions, or the raised exception's
message.  `time_resolution` outside `{M, D}` cannot reach this method
(construction rejects it); that branch is modelled as an error. -/
def calculate_long_term_losses (time_resolution : String) (df : List OperatingRow) :
    Except String (ℚ × ℚ) :=
  if time_resolution = "M" then
    if (availLongTermM df).length ≠ 12 then
      Except.error "Not all calendar months represented in long-term availability calculation"
    else if (curtLongTermM df).length ≠ 12 then
      Except.error "Not all calendar months represented in long-term curtailment calculation"
    else
      Except.ok
        ((List.zipWith (fun p d => p.2 * d) (availLongTermM df) num_days_lt).sum / days_year_lt,
         (List.zipWith (fun p d => p.2 * d) (curtLongTermM df) num_days_lt).sum / days_year_lt)
  else if time_resolution = "D" then
    if (availLongTermD df).length ≠ 366 then
      Except.error "Not all calendar days represented in long-term availability calculation"
    else if (curtLongTermD df).length ≠ 366 then
      Except.error "Not all calendar days represented in long-term curtailment calculation"
    else
      Except.ok (((availLongTermD df).map Prod.snd).sum / days_year_lt,
                 ((curtLongTermD df).map Prod.snd).sum / days_year_lt)
  else Except.error "invalid time resolution"

/-- The validation performed by `__init__` (lines 95-117), in source order:
time resolution, temperature flag, wind-direction flag, regression model,
and the monthly-resolution/linear-model constraint.  These checks run
before any preprocessing or simulation. -/
def initValidate (time_resolution reg_temperature reg_winddirection reg_model : String) :
    Except String Unit :=
  if ¬ (time_resolution = "M" ∨ time_resolution = "D") then
    Except.error "time_res has to either be M (monthly, default) or D (daily)"
  else if ¬ (reg_temperature = "Y" ∨ reg_temperature = "N") then
    Except.error "reg_temperature has to either be Y or N"
  else if ¬ (reg_winddirection = "Y" ∨ reg_winddirection = "N") then
    Except.error "reg_winddirection has to either be Y or N"
  else if ¬ (reg_model = "lin" ∨ reg_model = "gbm" ∨ reg_model = "etr" ∨ reg_model = "gam") then
    Except.error "reg_model has to either be lin, gbm, etr or gam"
  else if time_resolution = "M" ∧ reg_model ≠ "lin" then
    Except.error "For monthly time resolution, only linear regression is allowed!"
  else Except.ok ()

/-- Static configuration of the analysis object that the filtering and
simulation methods read: `self.time_resolution` and
`self._plant._plant_capacity`. -/
structure SimConfig where
  time_resolution : String
  plant_capacity : ℚ

/-- Modelled from the spec: the external `filters.range_flag` primitive
flags a value exactly when it lies outside the closed range
`[below, above]` (spec 4.5: wind speed outside [0, 40] m/s is flagged). -/
def range_flag (below above x : ℚ) : Bool :=
  !(decide (below ≤ x) && decide (x ≤ above))

/-- The capacity-derived maximum energy per period used by
`filter_outliers` (lines 722-725): plant capacity converted to GWh over
366 x 24 hours (monthly) or 24 hours (daily). -/
def plantCapacGWh (cfg : SimConfig) : ℚ :=
  if cfg.time_resolution = "M" then cfg.plant_capacity / 1000 * (366 * 24)
  else cfg.plant_capacity / 1000 * (1 * 24)

/-- Line 746 of `filter_outliers`: where `flag_neg` (the range flag on
energy with bounds `[0, plant_capac]`) is raised, the energy value is
overwritten with zero. -/
def adjustEnergy (plant_capac : ℚ) (r : OperatingRow) : OperatingRow :=
  if range_flag 0 plant_capac r.energy_gwh then { r with energy_gwh := 0 } else r

/-- The cache-miss body of `filter_outliers` (lines 714-786).
`uflag` is the external `filters.unresponsive_flag` primitive applied to
the wind-speed column (threshold 3 in the source), given as an opaque
per-column function producing one flag per entry.  The `flag_window`
column is computed in the source but excluded from `flag_final`
(commented out on line 743), so it never influences the result and is
omitted here.  The source finally projects the surviving rows onto a
regression-relevant column subset; the embedding keeps whole rows, whose
retained columns (wind speed, energy, losses, days-expected) are fields
of `OperatingRow`. -/
def computeFilter (cfg : SimConfig) (uflag : List ℚ → List Bool)
    (df : List OperatingRow) (reanal : String) (comb_loss_thresh : ℚ) :
    List OperatingRow :=
  let df_sub := df.filter (fun r =>
    decide (r.availability_pct + r.curtailment_pct < comb_loss_thresh) && !r.nan_flag)
  let plant_capac := plantCapacGWh cfg
  let flag_frozen := uflag (df_sub.map (fun r => r.ws reanal))
  ((df_sub.zip flag_frozen).filter
    (fun p => !(range_flag 0 40 (p.1.ws reanal) || p.2))).map
    (fun p => adjustEnergy plant_capac p.1)

/-- The tuple key of the `self.outlier_filtering` memo dictionary:
(reanalysis product, max-power-filter draw, combined-loss-threshold
draw). -/
abbrev FilterKey := String × ℚ × ℚ

/-- The `self.outlier_filtering` memo dictionary, modelled as an
association list. -/
abbrev FilterCache := List (FilterKey × List OperatingRow)

/-- Dictionary lookup. -/
def cacheLookup (c : FilterCache) (k : FilterKey) : Option (List OperatingRow) :=
  match c with
  | [] => none
  | (k', v) :: rest => if k' = k then some v else cacheLookup rest k

/-- The per-simulation Monte Carlo draws (`setup_monte_carlo_inputs`
arrays) together with the oracle values of the random primitives consumed
inside the simulation loop: `subsample` holds the outcome of
`reg_data.sample(frac=0.8)` and `iavDraw sim i` the outcome of the i-th
`sample_normal` call of simulation `sim`. -/
structure MCDraws where
  reanalysisProduct : ℕ → String
  maxPowerFilter : ℕ → ℚ
  windBinThresh : ℕ → ℚ
  meteredEnergyFraction : ℕ → ℚ
  lossFraction : ℕ → ℚ
  numYearsWindiness : ℕ → ℕ
  lossThreshold : ℕ → ℚ
  subsample : ℕ → List (ℚ × ℚ) → List (ℚ × ℚ)
  iavDraw : ℕ → ℕ → ℚ

/-- Everything the simulation loop reads: configuration, the frozen-sensor
primitive, the operating table `_monthly_daily.df`, the per-product
reanalysis series `_reanalysis_monthly_daily` (after `dropna`, hence
modelled NaN-free), and the Monte Carlo draws. -/
structure AEPEnv where
  cfg : SimConfig
  uflag : List ℚ → List Bool
  df : List OperatingRow
  series : String → List (Date × ℚ)
  draws : MCDraws

/-- The memo key built at the top of `filter_outliers` (lines 705-707). -/
def filterKey (env : AEPEnv) (n : ℕ) : FilterKey :=
  (env.draws.reanalysisProduct n, env.draws.maxPowerFilter n, env.draws.lossThreshold n)

/-- The filtered table for simulation `n`, bypassing the cache: what the
cache-miss computation stores under `filterKey env n`. -/
def computeFilterKeyed (env : AEPEnv) (k : FilterKey) : List OperatingRow :=
  computeFilter env.cfg env.uflag env.df k.1 k.2.2

/-- `filter_outliers` (lines 689-792): return the memoized result when the
key is present, otherwise compute, store and return.  The third component
records whether the filtering computation actually ran (`true` on a cache
miss), mirroring the instrumentation the spec asks to verify. -/
def filter_outliers (env : AEPEnv) (c : FilterCache) (n : ℕ) :
    List OperatingRow × FilterCache × Bool :=
  let k := filterKey env n
  match cacheLookup c k with
  | some v => (v, c, false)
  | none =>
    let v := computeFilterKeyed env k
    (v, (k, v) :: c, true)

/-- `pandas` `Series.tail(k)`: the last `k` entries. -/
def tailList {α : Type} (k : ℕ) (xs : List α) : List α := xs.drop (xs.length - k)

/-- `sample_long_term_reanalysis` (lines 1027-1104) for the configuration
the linear simulation loop exercises with temperature and wind direction
disabled: restrict the product's series to the last `yrs` years, average
by calendar month (monthly) or calendar day (daily), and scale each
period's mean by that period's inter-annual-variability draw
(`sample_normal`, whose outcomes `iavDraw` supplies in group order). -/
def sample_long_term_reanalysis (env : AEPEnv) (n : ℕ) (yrs : ℕ) (r : String) :
    List ℚ :=
  let ws_df := env.series r
  if env.cfg.time_resolution = "M" then
    let ws_data := tailList (yrs * 12) ws_df
    let ws_monthly := groupMeans monthsList (ws_data.map (fun p => (p.1.month, p.2)))
    ws_monthly.enum.map (fun p => p.2.2 * env.draws.iavDraw n p.1)
  else
    let ws_data := tailList (yrs * 366) ws_df
    let ws_daily := groupMeans calendarDays (ws_data.map (fun p => ((p.1.month, p.1.day), p.2)))
    ws_daily.enum.map (fun p => p.2.2 * env.draws.iavDraw n p.1)

/-- The `_reanalysis_por_avg` column for product `r` (lines 127-133):
period-of-record operating table averaged by calendar month (monthly) or
calendar day (daily). -/
def porAvg (env : AEPEnv) (r : String) : List ℚ :=
  if env.cfg.time_resolution = "M" then
    (groupMeans monthsList (env.df.map (fun row => (row.date.month, row.ws r)))).map Prod.snd
  else
    (groupMeans calendarDays
      (env.df.map (fun row => ((row.date.month, row.date.day), row.ws r)))).map Prod.snd

/-- `set_regression_data` (lines 795-849) for the temperature/wind
direction disabled configuration: bias the energy and loss columns by the
simulation's draws, form gross energy, normalize to 30-day months when
monthly, and pair with the chosen product's wind speed. -/
def set_regression_data (env : AEPEnv) (reg_data : List OperatingRow) (n : ℕ) :
    List (ℚ × ℚ) :=
  reg_data.map (fun r =>
    let mc_energy := r.energy_gwh * env.draws.meteredEnergyFraction n
    let mc_availability := r.availability_gwh * env.draws.lossFraction n
    let mc_curtailment := r.curtailment_gwh * env.draws.lossFraction n
    let mc_gross_energy := mc_energy + mc_availability + mc_curtailment
    let mc_gross_norm := if env.cfg.time_resolution = "M" then
      mc_gross_energy * 30 / r.num_days_expected else mc_gross_energy
    (r.ws (env.draws.reanalysisProduct n), mc_gross_norm))

/-- Ordinary least squares of y on x with intercept
(`sklearn.linear_model.LinearRegression` on one feature): the closed-form
centered solution; a degenerate design (zero centered variance) yields the
pseudo-inverse solution of slope zero. -/
def olsFit (pts : List (ℚ × ℚ)) : ℚ × ℚ :=
  let m : ℚ := (pts.length : ℚ)
  let xbar := (pts.map Prod.fst).sum / m
  let ybar := (pts.map Prod.snd).sum / m
  let sxx := (pts.map (fun p => (p.1 - xbar) ^ 2)).sum
  let sxy := (pts.map (fun p => (p.1 - xbar) * (p.2 - ybar))).sum
  let slope := if sxx = 0 then 0 else sxy / sxx
  (slope, ybar - slope * xbar)

/-- `run_regression` (lines 852-892), linear branch without temperature or
wind direction: fit OLS on the simulation's random 80% subsample of the
regression data (the subsample outcome is supplied by the draw oracle). -/
def run_regression (env : AEPEnv) (filtered : List OperatingRow) (n : ℕ) : ℚ × ℚ :=
  olsFit (env.draws.subsample n (set_regression_data env filtered n))

/-- The long-term gross energy series of one simulation (lines 929-940):
apply the fitted slope and intercept to the long-term wind speeds and,
in monthly mode, undo the 30-day normalization with `num_days_lt`. -/
def grossLtList (env : AEPEnv) (filtered : List OperatingRow) (n : ℕ) : List ℚ :=
  let si := run_regression env filtered n
  let reg_inputs_lt := sample_long_term_reanalysis env n
    (env.draws.numYearsWindiness n) (env.draws.reanalysisProduct n)
  let gross_norm_lt := reg_inputs_lt.map (fun x => x * si.1 + si.2)
  if env.cfg.time_resolution = "M" then
    List.zipWith (fun g d => g * d / 30) gross_norm_lt num_days_lt
  else gross_norm_lt

/-- The period-of-record gross energy series of one simulation
(lines 942-962), same regression applied to the period-of-record
averages. -/
def grossPorList (env : AEPEnv) (filtered : List OperatingRow) (n : ℕ) : List ℚ :=
  let si := run_regression env filtered n
  let gross_norm_por := (porAvg env (env.draws.reanalysisProduct n)).map
    (fun x => x * si.1 + si.2)
  if env.cfg.time_resolution = "M" then
    List.zipWith (fun g d => g * d / 30) gross_norm_por num_days_lt
  else gross_norm_por

/-- `sample_long_term_losses` (lines 1107-1123): the long-term baseline
scalars, each scaled by this simulation's loss-bias draw. -/
def sample_long_term_losses (env : AEPEnv) (baseline : ℚ × ℚ) (n : ℕ) : ℚ × ℚ :=
  (baseline.1 * env.draws.lossFraction n, baseline.2 * env.draws.lossFraction n)

/-- One row of the `sim_results` table (lines 1016-1019). -/
structure SimOutput where
  aep_GWh : ℚ
  avail_pct : ℚ
  curt_pct : ℚ
  lt_por_ratio : ℚ
deriving Repr, DecidableEq, Inhabited

/-- The body of one simulation of the linear loop (lines 927-971), given
the filtered table obtained for this iteration. -/
def simStepWith (env : AEPEnv) (filtered : List OperatingRow) (baseline : ℚ × ℚ)
    (n : ℕ) : SimOutput :=
  let gross_lt_sum := (grossLtList env filtered n).sum
  let gross_por_sum := (grossPorList env filtered n).sum
  let losses := sample_long_term_losses env baseline n
  { aep_GWh := gross_lt_sum * (1 - losses.1)
    avail_pct := losses.1
    curt_pct := losses.2
    lt_por_ratio := gross_lt_sum / gross_por_sum }

/-- The simulation loop of `run_AEP_monte_carlo` threading the memo
dictionary through the iterations in order. -/
def simLoop (env : AEPEnv) (baseline : ℚ × ℚ) : List ℕ → FilterCache → List SimOutput
  | [], _ => []
  | n :: rest, c =>
    let res := filter_outliers env c n
    simStepWith env res.1 baseline n :: simLoop env baseline rest res.2.1

/-- `run_AEP_monte_carlo` (lines 909-1020), linear branch: iterate the
simulation body over `n = 0 .. num_sim - 1` starting from the empty memo
dictionary created in `__init__`. -/
def run_AEP_monte_carlo (env : AEPEnv) (baseline : ℚ × ℚ) (num_sim : ℕ) :
    List SimOutput :=
  simLoop env baseline (List.range num_sim) []

/-- The filtered table simulation `n` effectively uses (the cache-miss
computation at its key). -/
def mcFiltered (env : AEPEnv) (n : ℕ) : List OperatingRow :=
  computeFilterKeyed env (filterKey env n)

/-- The cache-free description of one simulation's output row. -/
def pureSim (env : AEPEnv) (baseline : ℚ × ℚ) (n : ℕ) : SimOutput :=
  simStepWith env (mcFiltered env n) baseline n

/-- The uncertainty ranges stored by `__init__` (lines 89-92) that
`setup_monte_carlo_inputs` samples from. -/
structure UncertaintyConfig where
  windiness : ℚ × ℚ
  max_power_filter : ℚ × ℚ
  loss_max : ℚ × ℚ
  wind_bin_thresh : ℚ × ℚ

/-- The contract of `np.random.randint(low, high)`: every produced value
is an integer of `[⌊low⌋, ⌊high⌋)` (numpy converts float bounds with
`int`, which floors the nonnegative bounds used here). -/
def inRandint (low high : ℚ) (k : ℤ) : Prop := ⌊low⌋ ≤ k ∧ k < ⌊high⌋

/-- Line 673-674: `self._mc_max_power_filter`, the raw
`randint(low*100, high*100)` draw divided by 100. -/
def mcMaxPowerFilter (raw : ℕ → ℤ) (n : ℕ) : ℚ := (raw n : ℚ) / 100

/-- Line 675-676: `self._mc_wind_bin_thresh`, the raw
`randint(low*100, high*100)` draw divided by 100. -/
def mcWindBinThresh (raw : ℕ → ℤ) (n : ℕ) : ℚ := (raw n : ℚ) / 100

/-- Line 679-680: `self._mc_num_years_windiness`, the raw
`randint(low, high + 1)` draw itself. -/
def mcNumYearsWindiness (raw : ℕ → ℤ) (n : ℕ) : ℤ := raw n

/-- Line 681-682: `self._mc_loss_threshold`, the raw
`randint(low, high + 1)` draw divided by 100. -/
def mcLossThreshold (raw : ℕ → ℤ) (n : ℕ) : ℚ := (raw n : ℚ) / 100

/-- `np.arctan2 y x`, modelled as the argument of the complex number
`x + y i` (the principal value in `(-π, π]`). -/
noncomputable def atan2 (y x : ℝ) : ℝ := Complex.arg (x + y * Complex.I)

/-- The wind-direction derivation of `process_reanalysis_data`
(lines 527 and 553): `180 - np.rad2deg(np.arctan2(-u, v))`. -/
noncomputable def windDirection (u v : ℝ) : ℝ :=
  180 - (180 / Real.pi) * atan2 (-u) v

lemma cacheLookup_insert_self (c : FilterCache) (k : FilterKey) (v : List OperatingRow) :
    cacheLookup ((k, v) :: c) k = some v := by
  simp [cacheLookup]

/-- C3: two calls of the outlier filter with the same
(product, max-power-filter, loss-threshold) key return identical results,
and the second call is served from the stored cache entry without running
the filtering computation (its recompute flag is false). -/
theorem filter_outliers_memoized (env : AEPEnv) (c : FilterCache) (n1 n2 : ℕ)
    (hkey : filterKey env n1 = filterKey env n2) :
    (filter_outliers env (filter_outliers env c n1).2.1 n2).1
        = (filter_outliers env c n1).1
      ∧ (filter_outliers env (filter_outliers env c n1).2.1 n2).2.2 = false := by
  unfold filter_outliers
  rw [← hkey]
  cases h : cacheLookup c (filterKey env n1) with
  | some v => simp [h]
  | none => simp [h, cacheLookup_insert_self]

/-- C8: construction raises exactly when the configuration is invalid:
bad time resolution, bad Y/N flag, bad regression model, or a non-linear
model combined with monthly resolution. -/
theorem initValidate_error_iff (tr t w m : String) :
    (∃ e, initValidate tr t w m = Except.error e) ↔
      (¬ (tr = "M" ∨ tr = "D")) ∨ (¬ (t = "Y" ∨ t = "N")) ∨ (¬ (w = "Y" ∨ w = "N")) ∨
      (¬ (m = "lin" ∨ m = "gbm" ∨ m = "etr" ∨ m = "gam")) ∨ (m ≠ "lin" ∧ tr = "M") := by
  unfold initValidate
  split_ifs with h1 h2 h3 h4 h5 <;> simp <;> tauto

lemma atan2_neg_one_zero : atan2 (-1 : ℝ) 0 = -(Real.pi / 2) := by
  unfold atan2
  have h : ((0 : ℝ) : ℂ) + ((-1 : ℝ) : ℂ) * Complex.I = -Complex.I := by
    push_cast
    ring
  rw [h, Complex.arg_neg_I]

lemma atan2_zero_one : atan2 (-0 : ℝ) 1 = 0 := by
  unfold atan2
  have h : ((1 : ℝ) : ℂ) + ((-0 : ℝ) : ℂ) * Complex.I = 1 := by
    push_cast
    ring
  rw [h, Complex.arg_one]

lemma windDirection_zero_one : windDirection 0 1 = 180 := by
  unfold windDirection
  rw [atan2_zero_one]
  ring

lemma windDirection_one_zero : windDirection 1 0 = 270 := by
  unfold windDirection
  rw [atan2_neg_one_zero]
  have h90 : (180 : ℝ) / Real.pi * (Real.pi / 2) = 90 := by
    field_simp
    ring
  rw [mul_neg, h90]
  norm_num

/-- C5, counterexample: the computed mean wind direction at u = 1, v = 0
is 270 degrees, not the 90 degrees the claim asserts. -/
theorem windDirection_one_zero_ne_ninety : windDirection 1 0 ≠ 90 := by
  rw [windDirection_one_zero]
  norm_num

/-- C5, amended: the mean wind direction is 180 - atan2(-u, v) in degrees;
for u = 0, v = 1 it equals 180 degrees, and for u = 1, v = 0 it equals
270 degrees (the meteorological direction the wind is coming from). -/
theorem windDirection_spec :
    (∀ u v : ℝ, windDirection u v = 180 - (180 / Real.pi) * atan2 (-u) v)
      ∧ windDirection 0 1 = 180 ∧ windDirection 1 0 = 270 :=
  ⟨fun _ _ => rfl, windDirection_zero_one, windDirection_one_zero⟩

/-- A concrete one-row operating table entry used by the witnesses. -/
def rowW : OperatingRow :=
  { date := ⟨1, 1⟩, energy_gwh := 5, availability_gwh := 0, curtailment_gwh := 0,
    availability_pct := 0, curtailment_pct := 0, nan_flag := false,
    availability_typical := true, curtailment_typical := true,
    num_days_expected := 31, ws := fun _ => 5 }

/-- Concrete Monte Carlo draws used by the witnesses. -/
def drawsW : MCDraws :=
  { reanalysisProduct := fun _ => "era5", maxPowerFilter := fun _ => 17 / 20,
    windBinThresh := fun _ => 2, meteredEnergyFraction := fun _ => 1,
    lossFraction := fun _ => 1, numYearsWindiness := fun _ => 10,
    lossThreshold := fun _ => 1 / 10, subsample := fun _ xs => xs,
    iavDraw := fun _ _ => 1 }

/-- A concrete frozen-sensor primitive (nothing flagged) used by the
witnesses; it preserves column length as the real primitive does. -/
def uflagW : List ℚ → List Bool := fun xs => xs.map (fun _ => false)

/-- A concrete environment used by the witnesses. -/
def envW : AEPEnv :=
  { cfg := { time_resolution := "M", plant_capacity := 1000 },
    uflag := uflagW, df := [rowW], series := fun _ => [(⟨1, 1⟩, 5)], draws := drawsW }

theorem filter_outliers_memoized_witness :
    (filter_outliers envW (filter_outliers envW [] 0).2.1 1).1
        = (filter_outliers envW [] 0).1
      ∧ (filter_outliers envW (filter_outliers envW [] 0).2.1 1).2.2 = false :=
  filter_outliers_memoized envW [] 0 1 rfl

/-- C7: under the `randint` contracts of `setup_monte_carlo_inputs`, with
integer-valued percent bounds as configured by default, every max-power
filter draw lies in the configured range and is an integer number of
hundredths, every windiness draw is an integer (by construction) within
the configured bounds inclusive, and both windiness endpoints are
attainable values of its `randint` range. -/
theorem monte_carlo_draw_bounds (u : UncertaintyConfig) (rawMPF rawW : ℕ → ℤ) (N : ℕ)
    (hlo : (u.max_power_filter.1 * 100 : ℚ) = ((⌊u.max_power_filter.1 * 100⌋ : ℤ) : ℚ))
    (hhi : (u.max_power_filter.2 * 100 : ℚ) = ((⌊u.max_power_filter.2 * 100⌋ : ℤ) : ℚ))
    (hwlo : (u.windiness.1 : ℚ) = ((⌊u.windiness.1⌋ : ℤ) : ℚ))
    (hwhi : (u.windiness.2 : ℚ) = ((⌊u.windiness.2⌋ : ℤ) : ℚ))
    (hwle : u.windiness.1 ≤ u.windiness.2)
    (hMPF : ∀ n, n < N →
      inRandint (u.max_power_filter.1 * 100) (u.max_power_filter.2 * 100) (rawMPF n))
    (hW : ∀ n, n < N → inRandint u.windiness.1 (u.windiness.2 + 1) (rawW n)) :
    (∀ n, n < N → u.max_power_filter.1 ≤ mcMaxPowerFilter rawMPF n
      ∧ mcMaxPowerFilter rawMPF n ≤ u.max_power_filter.2
      ∧ ∃ k : ℤ, mcMaxPowerFilter rawMPF n = (k : ℚ) / 100)
    ∧ (∀ n, n < N → u.windiness.1 ≤ (mcNumYearsWindiness rawW n : ℚ)
      ∧ (mcNumYearsWindiness rawW n : ℚ) ≤ u.windiness.2)
    ∧ inRandint u.windiness.1 (u.windiness.2 + 1) ⌊u.windiness.1⌋
    ∧ inRandint u.windiness.1 (u.windiness.2 + 1) ⌊u.windiness.2⌋ := by
  have hfloor1 : ⌊u.windiness.2 + 1⌋ = ⌊u.windiness.2⌋ + 1 := by
    exact_mod_cast Int.floor_add_one u.windiness.2
  refine ⟨fun n hn => ?_, fun n hn => ?_, ?_, ?_⟩
  · obtain ⟨h1, h2⟩ := hMPF n hn
    have hc1 : ((⌊u.max_power_filter.1 * 100⌋ : ℤ) : ℚ) ≤ ((rawMPF n : ℤ) : ℚ) := by
      exact_mod_cast h1
    have hc2 : ((rawMPF n : ℤ) : ℚ) + 1 ≤ ((⌊u.max_power_filter.2 * 100⌋ : ℤ) : ℚ) := by
      have := Int.add_one_le_iff.mpr h2
      exact_mod_cast this
    rw [← hlo] at hc1
    rw [← hhi] at hc2
    refine ⟨?_, ?_, ⟨rawMPF n, rfl⟩⟩
    · unfold mcMaxPowerFilter
      linarith
    · unfold mcMaxPowerFilter
      linarith
  · obtain ⟨h1, h2⟩ := hW n hn
    rw [hfloor1] at h2
    have h2' : rawW n ≤ ⌊u.windiness.2⌋ := by omega
    have hc1 : ((⌊u.windiness.1⌋ : ℤ) : ℚ) ≤ ((rawW n : ℤ) : ℚ) := by exact_mod_cast h1
    have hc2 : ((rawW n : ℤ) : ℚ) ≤ ((⌊u.windiness.2⌋ : ℤ) : ℚ) := by exact_mod_cast h2'
    rw [← hwlo] at hc1
    rw [← hwhi] at hc2
    exact ⟨hc1, hc2⟩
  · refine ⟨le_refl _, ?_⟩
    rw [hfloor1]
    have := Int.floor_le_floor hwle
    omega
  · refine ⟨Int.floor_le_floor hwle, ?_⟩
    rw [hfloor1]
    omega

theorem monte_carlo_draw_bounds_witness :
    (∀ n, n < 1 → (4 / 5 : ℚ) ≤ mcMaxPowerFilter (fun _ => 85) n
      ∧ mcMaxPowerFilter (fun _ => 85) n ≤ (9 / 10 : ℚ)
      ∧ ∃ k : ℤ, mcMaxPowerFilter (fun _ => 85) n = (k : ℚ) / 100)
    ∧ (∀ n, n < 1 → (10 : ℚ) ≤ (mcNumYearsWindiness (fun _ => 15) n : ℚ)
      ∧ (mcNumYearsWindiness (fun _ => 15) n : ℚ) ≤ (20 : ℚ))
    ∧ inRandint (10 : ℚ) ((20 : ℚ) + 1) ⌊(10 : ℚ)⌋
    ∧ inRandint (10 : ℚ) ((20 : ℚ) + 1) ⌊(20 : ℚ)⌋ :=
  monte_carlo_draw_bounds
    ⟨(10, 20), (4 / 5, 9 / 10), (10, 20), (1, 3)⟩ (fun _ => 85) (fun _ => 15) 1
    (by norm_num) (by norm_num) (by norm_num) (by norm_num) (by norm_num)
    (fun n _ => by constructor <;> norm_num [inRandint])
    (fun n _ => by constructor <;> norm_num [inRandint])

lemma filter_map_comm {α β : Type} (l : List α) (f : α → β) (p : β → Bool) :
    (l.map f).filter p = (l.filter (fun a => p (f a))).map f := by
  induction l with
  | nil => rfl
  | cons a t ih =>
    by_cases h : p (f a) <;> simp [h, ih]

lemma zipWith_map_left' {α β γ δ : Type} (l : List α) (l' : List β) (f : α → γ)
    (g : γ → β → δ) :
    List.zipWith g (l.map f) l' = List.zipWith (fun a b => g (f a) b) l l' := by
  induction l generalizing l' with
  | nil => rfl
  | cons a t ih =>
    cases l' with
    | nil => rfl
    | cons b t' => simp [ih]

lemma zipWith_congr_left {α β γ : Type} (f g : α → β → γ) :
    ∀ (l : List α) (l' : List β), (∀ a ∈ l, ∀ b, f a b = g a b) →
      List.zipWith f l l' = List.zipWith g l l'
  | [], _, _ => rfl
  | _ :: _, [], _ => rfl
  | a :: t, b :: t', h => by
    simp only [List.zipWith]
    rw [h a (List.mem_cons_self a t) b,
      zipWith_congr_left f g t t' (fun x hx => h x (List.mem_cons_of_mem a hx))]

lemma groupMeans_complete {K : Type} [DecidableEq K] (keys : List K) (xs : List (K × ℚ))
    (h : ∀ k ∈ keys, ∃ p ∈ xs, p.1 = k) :
    groupMeans keys xs = keys.map
      (fun k => (k, listMean ((xs.filter (fun p => decide (p.1 = k))).map Prod.snd))) := by
  unfold groupMeans
  congr 1
  apply List.filter_eq_self.mpr
  intro k hk
  rw [List.any_eq_true]
  obtain ⟨p, hp, hpk⟩ := h k hk
  exact ⟨p, hp, by simp [hpk]⟩

lemma groupMeans_length {K : Type} [DecidableEq K] (keys : List K) (xs : List (K × ℚ))
    (hnd : keys.Nodup) (hcov : ∀ p ∈ xs, p.1 ∈ keys) :
    (groupMeans keys xs).length = (xs.map Prod.fst).toFinset.card := by
  unfold groupMeans
  rw [List.length_map]
  rw [← List.toFinset_card_of_nodup (hnd.filter _)]
  congr 1
  ext k
  simp only [List.mem_toFinset, List.mem_filter, List.any_eq_true, List.mem_map,
    decide_eq_true_eq]
  constructor
  · rintro ⟨-, p, hp, rfl⟩
    exact ⟨p, hp, rfl⟩
  · rintro ⟨p, hp, rfl⟩
    exact ⟨hcov p hp, p, hp, rfl⟩

lemma monthsList_nodup : monthsList.Nodup := by decide

/-- Linear-time strict ascent check, used to certify `calendarDays` free
of duplicates without a quadratic comparison. -/
def ascendingBool : List ℕ → Bool
  | [] => true
  | [_] => true
  | a :: b :: t => decide (a < b) && ascendingBool (b :: t)

lemma ascendingBool_chain' : ∀ (l : List ℕ), ascendingBool l = true →
    List.Chain' (· < ·) l
  | [], _ => List.chain'_nil
  | [a], _ => List.chain'_singleton a
  | a :: b :: t, h => by
    simp only [ascendingBool, Bool.and_eq_true, decide_eq_true_eq] at h
    exact List.chain'_cons.mpr ⟨h.1, ascendingBool_chain' (b :: t) h.2⟩

lemma calendarDays_nodup : calendarDays.Nodup := by
  have h : ascendingBool (calendarDays.map (fun k => k.1 * 32 + k.2)) = true := by decide
  have hp : List.Pairwise (· < ·) (calendarDays.map (fun k => k.1 * 32 + k.2)) :=
    List.chain'_iff_pairwise.mp (ascendingBool_chain' _ h)
  have hnd : (calendarDays.map (fun k => k.1 * 32 + k.2)).Nodup :=
    hp.imp (fun hlt => Nat.ne_of_lt hlt)
  exact hnd.of_map

lemma mem_calendarDays_month {m d : ℕ} (h : (m, d) ∈ calendarDays) : m ∈ monthsList := by
  unfold calendarDays at h
  rw [List.mem_flatMap] at h
  obtain ⟨m', hm', hmd⟩ := h
  rw [List.mem_map] at hmd
  obtain ⟨d', -, hd'⟩ := hmd
  cases hd'
  exact hm'

lemma month_day_one_mem {m : ℕ} (hm : m ∈ monthsList) : (m, 1) ∈ calendarDays := by
  unfold calendarDays
  rw [List.mem_flatMap]
  refine ⟨m, hm, ?_⟩
  rw [List.mem_map]
  refine ⟨0, ?_, rfl⟩
  rw [List.mem_range]
  fin_cases hm <;> decide

lemma range_pass_eq (x : ℚ) (f : Bool) :
    (!(range_flag 0 40 x || f)) = decide ((0 ≤ x ∧ x ≤ 40) ∧ f = false) := by
  unfold range_flag
  cases f <;> by_cases h0 : (0 : ℚ) ≤ x <;> by_cases h40 : x ≤ 40 <;> simp [h0, h40]

lemma lossNan_pred_eq (thresh : ℚ) (r : OperatingRow) :
    (decide (r.availability_pct + r.curtailment_pct < thresh) && !r.nan_flag)
      = decide (r.availability_pct + r.curtailment_pct < thresh ∧ r.nan_flag = false) := by
  cases h : r.nan_flag <;>
    by_cases hl : r.availability_pct + r.curtailment_pct < thresh <;> simp [hl, h]

/-- C4: on a cache miss the filter keeps exactly the base-table rows with
combined losses strictly below the sampled threshold, missing-data flag
false, wind speed of the chosen product inside [0, 40], and not flagged by
the frozen-sensor filter (pairing each surviving row positionally with its
frozen flag); within the returned rows, negative energy is replaced by
zero. -/
theorem filter_miss_rows (cfg : SimConfig) (uflag : List ℚ → List Bool)
    (df : List OperatingRow) (reanal : String) (thresh : ℚ)
    (r : OperatingRow) (hneg : r.energy_gwh < 0) :
    computeFilter cfg uflag df reanal thresh =
      (((df.filter (fun x =>
            decide (x.availability_pct + x.curtailment_pct < thresh ∧ x.nan_flag = false))).zip
          (uflag ((df.filter (fun x =>
            decide (x.availability_pct + x.curtailment_pct < thresh ∧ x.nan_flag = false))).map
              (fun x => x.ws reanal)))).filter
        (fun p => decide ((0 ≤ p.1.ws reanal ∧ p.1.ws reanal ≤ 40) ∧ p.2 = false))).map
        (fun p => adjustEnergy (plantCapacGWh cfg) p.1)
    ∧ (adjustEnergy (plantCapacGWh cfg) r).energy_gwh = 0 := by
  constructor
  · have hsub : df.filter (fun x =>
        decide (x.availability_pct + x.curtailment_pct < thresh) && !x.nan_flag)
        = df.filter (fun x =>
            decide (x.availability_pct + x.curtailment_pct < thresh ∧ x.nan_flag = false)) :=
      List.filter_congr (fun x _ => lossNan_pred_eq thresh x)
    simp only [computeFilter]
    rw [hsub]
    congr 1
    apply List.filter_congr
    intro p _
    exact range_pass_eq (p.1.ws reanal) p.2
  · unfold adjustEnergy range_flag
    have h0 : decide ((0 : ℚ) ≤ r.energy_gwh) = false :=
      decide_eq_false (not_le.mpr hneg)
    rw [h0, Bool.false_and, Bool.not_false, if_pos rfl]

/-- A row with negative energy used by the C4 witness. -/
def rowNeg : OperatingRow := { rowW with energy_gwh := -1 }

theorem filter_miss_rows_witness :
    computeFilter envW.cfg uflagW [rowW] "era5" (1 / 10) =
      ((([rowW].filter (fun x =>
            decide (x.availability_pct + x.curtailment_pct < (1 / 10 : ℚ) ∧ x.nan_flag = false))).zip
          (uflagW (([rowW].filter (fun x =>
            decide (x.availability_pct + x.curtailment_pct < (1 / 10 : ℚ) ∧ x.nan_flag = false))).map
              (fun x => x.ws "era5")))).filter
        (fun p => decide ((0 ≤ p.1.ws "era5" ∧ p.1.ws "era5" ≤ 40) ∧ p.2 = false))).map
        (fun p => adjustEnergy (plantCapacGWh envW.cfg) p.1)
    ∧ (adjustEnergy (plantCapacGWh envW.cfg) rowNeg).energy_gwh = 0 :=
  filter_miss_rows envW.cfg uflagW [rowW] "era5" (1 / 10) rowNeg (by norm_num [rowNeg, rowW])

/-- C10: the zero-clamp is not only for negative energy: a row whose
energy exceeds the capacity-derived maximum for the period (plant capacity
converted to GWh over 366 x 24 hours in monthly mode, 24 hours in daily
mode) is flagged by the same range flag, gets its energy set to zero, and
— when it passes the loss/NaN subset and the wind-speed and frozen-sensor
filters — still appears in the returned table (with zero energy) instead
of being dropped or left unchanged. -/
theorem filter_overmax_energy_zeroed (cfg : SimConfig) (uflag : List ℚ → List Bool)
    (df : List OperatingRow) (reanal : String) (thresh : ℚ)
    (r : OperatingRow) (f : Bool)
    (hcap : (if cfg.time_resolution = "M" then cfg.plant_capacity / 1000 * (366 * 24)
             else cfg.plant_capacity / 1000 * (1 * 24)) < r.energy_gwh)
    (hmem : (r, f) ∈ (df.filter (fun x =>
        decide (x.availability_pct + x.curtailment_pct < thresh) && !x.nan_flag)).zip
        (uflag ((df.filter (fun x =>
          decide (x.availability_pct + x.curtailment_pct < thresh) && !x.nan_flag)).map
            (fun x => x.ws reanal))))
    (hws : range_flag 0 40 (r.ws reanal) = false)
    (hf : f = false) :
    range_flag 0 (plantCapacGWh cfg) r.energy_gwh = true
    ∧ (adjustEnergy (plantCapacGWh cfg) r).energy_gwh = 0
    ∧ { r with energy_gwh := 0 } ∈ computeFilter cfg uflag df reanal thresh := by
  have hcap' : plantCapacGWh cfg < r.energy_gwh := by
    unfold plantCapacGWh
    exact hcap
  have hflag : range_flag 0 (plantCapacGWh cfg) r.energy_gwh = true := by
    unfold range_flag
    rw [decide_eq_false (not_le.mpr hcap'), Bool.and_false]
    rfl
  have hadj : adjustEnergy (plantCapacGWh cfg) r = { r with energy_gwh := 0 } := by
    unfold adjustEnergy
    rw [hflag, if_pos rfl]
  refine ⟨hflag, by rw [hadj], ?_⟩
  simp only [computeFilter]
  apply List.mem_map.mpr
  refine ⟨(r, f), List.mem_filter.mpr ⟨hmem, ?_⟩, hadj⟩
  rw [hws, hf]
  rfl

/-- A row with energy above the monthly capacity-derived maximum, used by
the C10 witness (for `envW.cfg` the maximum is 1000/1000 x 366 x 24 =
8784 GWh). -/
def rowBig : OperatingRow := { rowW with energy_gwh := 10000 }

theorem filter_overmax_energy_zeroed_witness :
    range_flag 0 (plantCapacGWh envW.cfg) rowBig.energy_gwh = true
    ∧ (adjustEnergy (plantCapacGWh envW.cfg) rowBig).energy_gwh = 0
    ∧ { rowBig with energy_gwh := 0 } ∈ computeFilter envW.cfg uflagW [rowBig] "era5" (1 / 10) :=
  filter_overmax_energy_zeroed envW.cfg uflagW [rowBig] "era5" (1 / 10) rowBig false
    (by norm_num [envW, rowBig, rowW])
    (by norm_num [uflagW, rowBig, rowW])
    (by decide)
    rfl

/-- The memo-dictionary invariant: every stored entry equals the cache-miss
computation at its key.  It holds for the empty dictionary `__init__`
creates and is preserved by `filter_outliers`. -/
def CacheAccurate (env : AEPEnv) (c : FilterCache) : Prop :=
  ∀ k v, cacheLookup c k = some v → v = computeFilterKeyed env k

lemma cacheAccurate_nil (env : AEPEnv) : CacheAccurate env [] := by
  intro k v h
  simp [cacheLookup] at h

lemma filter_outliers_accurate (env : AEPEnv) (c : FilterCache) (n : ℕ)
    (h : CacheAccurate env c) :
    (filter_outliers env c n).1 = mcFiltered env n
      ∧ CacheAccurate env (filter_outliers env c n).2.1 := by
  unfold filter_outliers
  cases hl : cacheLookup c (filterKey env n) with
  | some v =>
    simp only [hl]
    exact ⟨h _ _ hl, h⟩
  | none =>
    simp only [hl]
    refine ⟨rfl, ?_⟩
    intro k v hkv
    simp only [cacheLookup] at hkv
    by_cases hk : filterKey env n = k
    · rw [if_pos hk] at hkv
      cases hkv
      rw [← hk]
    · rw [if_neg hk] at hkv
      exact h _ _ hkv

lemma simLoop_eq_pure (env : AEPEnv) (baseline : ℚ × ℚ) :
    ∀ (ns : List ℕ) (c : FilterCache), CacheAccurate env c →
      simLoop env baseline ns c = ns.map (pureSim env baseline)
  | [], _, _ => rfl
  | n :: rest, c, h => by
    obtain ⟨h1, h2⟩ := filter_outliers_accurate env c n h
    simp only [simLoop, List.map]
    rw [h1, simLoop_eq_pure env baseline rest _ h2]
    rfl

lemma run_AEP_eq_pure (env : AEPEnv) (baseline : ℚ × ℚ) (N : ℕ) :
    run_AEP_monte_carlo env baseline N = (List.range N).map (pureSim env baseline) :=
  simLoop_eq_pure env baseline (List.range N) [] (cacheAccurate_nil env)

/-- C1: for every simulation index n below the simulation count, the
recorded AEP equals the annual sum of the long-term gross energy series
times (1 - availability loss), where the availability and curtailment
losses are the precomputed long-term baseline scalars each scaled by that
simulation's single loss-bias draw; the curtailment loss is recorded in
its own column but does not enter the AEP product. -/
theorem aep_monte_carlo_formula (env : AEPEnv) (baseline : ℚ × ℚ) (N n : ℕ)
    (hn : n < N) :
    ((run_AEP_monte_carlo env baseline N).getD n default).aep_GWh
        = (grossLtList env (mcFiltered env n) n).sum
            * (1 - baseline.1 * env.draws.lossFraction n)
      ∧ ((run_AEP_monte_carlo env baseline N).getD n default).avail_pct
        = baseline.1 * env.draws.lossFraction n
      ∧ ((run_AEP_monte_carlo env baseline N).getD n default).curt_pct
        = baseline.2 * env.draws.lossFraction n := by
  have h : (run_AEP_monte_carlo env baseline N).getD n default = pureSim env baseline n := by
    rw [run_AEP_eq_pure, List.getD_eq_getElem?_getD, List.getElem?_map,
      List.getElem?_range hn]
    rfl
  rw [h]
  exact ⟨rfl, rfl, rfl⟩

theorem aep_monte_carlo_formula_witness :
    ((run_AEP_monte_carlo envW (1 / 100, 1 / 200) 1).getD 0 default).aep_GWh
        = (grossLtList envW (mcFiltered envW 0) 0).sum
            * (1 - (1 / 100 : ℚ) * envW.draws.lossFraction 0)
      ∧ ((run_AEP_monte_carlo envW (1 / 100, 1 / 200) 1).getD 0 default).avail_pct
        = (1 / 100 : ℚ) * envW.draws.lossFraction 0
      ∧ ((run_AEP_monte_carlo envW (1 / 100, 1 / 200) 1).getD 0 default).curt_pct
        = (1 / 200 : ℚ) * envW.draws.lossFraction 0 :=
  aep_monte_carlo_formula envW (1 / 100, 1 / 200) 1 0 (by decide)

/-- C9: the wind-bin-threshold draws have no effect on any output: two
runs whose `_mc_wind_bin_thresh` arrays differ but whose configuration,
input data and all other draws are identical produce identical
SimulationResult tables — the drawn array is never read by the filtering,
regression, or simulation loop. -/
theorem wind_bin_thresh_unused (cfg : SimConfig) (uflag : List ℚ → List Bool)
    (df : List OperatingRow) (series : String → List (Date × ℚ))
    (baseline : ℚ × ℚ) (N : ℕ)
    (p : ℕ → String) (mpf : ℕ → ℚ) (mef lf : ℕ → ℚ) (nyw : ℕ → ℕ) (lt : ℕ → ℚ)
    (sub : ℕ → List (ℚ × ℚ) → List (ℚ × ℚ)) (iav : ℕ → ℕ → ℚ)
    (w1 w2 : ℕ → ℚ) :
    run_AEP_monte_carlo ⟨cfg, uflag, df, series, ⟨p, mpf, w1, mef, lf, nyw, lt, sub, iav⟩⟩
        baseline N
      = run_AEP_monte_carlo ⟨cfg, uflag, df, series, ⟨p, mpf, w2, mef, lf, nyw, lt, sub, iav⟩⟩
        baseline N := by
  have h : ∀ (ns : List ℕ) (c : FilterCache),
      simLoop ⟨cfg, uflag, df, series, ⟨p, mpf, w1, mef, lf, nyw, lt, sub, iav⟩⟩ baseline ns c
        = simLoop ⟨cfg, uflag, df, series, ⟨p, mpf, w2, mef, lf, nyw, lt, sub, iav⟩⟩
            baseline ns c := by
    intro ns
    induction ns with
    | nil => intro c; rfl
    | cons n rest ih =>
      intro c
      simp only [simLoop]
      exact congrArg₂ List.cons rfl (ih _)
  exact h (List.range N) []

/-- Number of distinct calendar months represented among a set of rows
(the spec's coverage measure for monthly mode). -/
def distinctMonthCount (rows : List OperatingRow) : ℕ :=
  ((rows.map (fun r => r.date.month)).toFinset).card

/-- Number of distinct (month, day) keys represented among a set of rows
(the spec's coverage measure for daily mode). -/
def distinctDayCount (rows : List OperatingRow) : ℕ :=
  ((rows.map (fun r => (r.date.month, r.date.day))).toFinset).card

lemma valid_group_length {K : Type} [DecidableEq K] (keys : List K) (hnd : keys.Nodup)
    (l : List OperatingRow) (f : OperatingRow → Date × ℚ) (g : Date × ℚ → K × ℚ)
    (hcov : ∀ r ∈ l, (g (f r)).1 ∈ keys) :
    (groupMeans keys ((l.map f).map g)).length
      = ((l.map (fun r => (g (f r)).1)).toFinset).card := by
  rw [List.map_map]
  have hc : ∀ p ∈ l.map (g ∘ f), p.1 ∈ keys := by
    intro p hp
    rw [List.mem_map] at hp
    obtain ⟨r, hr, rfl⟩ := hp
    exact hcov r hr
  rw [groupMeans_length _ _ hnd hc, List.map_map]
  rfl

lemma availLongTermM_length (df : List OperatingRow)
    (hm : ∀ r ∈ df, r.date.month ∈ monthsList) :
    (availLongTermM df).length
      = distinctMonthCount (df.filter (fun r => r.availability_typical)) := by
  unfold availLongTermM availValid distinctMonthCount
  exact valid_group_length monthsList monthsList_nodup _ _ _
    (fun r hr => hm r (List.mem_of_mem_filter hr))

lemma curtLongTermM_length (df : List OperatingRow)
    (hm : ∀ r ∈ df, r.date.month ∈ monthsList) :
    (curtLongTermM df).length
      = distinctMonthCount (df.filter (fun r => r.curtailment_typical)) := by
  unfold curtLongTermM curtValid distinctMonthCount
  exact valid_group_length monthsList monthsList_nodup _ _ _
    (fun r hr => hm r (List.mem_of_mem_filter hr))

lemma availLongTermD_length (df : List OperatingRow)
    (hd : ∀ r ∈ df, (r.date.month, r.date.day) ∈ calendarDays) :
    (availLongTermD df).length
      = distinctDayCount (df.filter (fun r => r.availability_typical)) := by
  unfold availLongTermD availValid distinctDayCount
  exact valid_group_length calendarDays calendarDays_nodup _ _ _
    (fun r hr => hd r (List.mem_of_mem_filter hr))

lemma curtLongTermD_length (df : List OperatingRow)
    (hd : ∀ r ∈ df, (r.date.month, r.date.day) ∈ calendarDays) :
    (curtLongTermD df).length
      = distinctDayCount (df.filter (fun r => r.curtailment_typical)) := by
  unfold curtLongTermD curtValid distinctDayCount
  exact valid_group_length calendarDays calendarDays_nodup _ _ _
    (fun r hr => hd r (List.mem_of_mem_filter hr))

/-- C2: with valid calendar dates, long-term loss estimation raises
exactly on missing coverage: fewer than 12 distinct months (monthly mode)
or fewer than 366 distinct (month, day) keys (daily mode) among the
typical-flagged rows, for either availability or curtailment, produces
the raised exception; full coverage completes with the two annualized
scalars. -/
theorem long_term_losses_coverage (df : List OperatingRow)
    (hdates : ∀ r ∈ df, (r.date.month, r.date.day) ∈ calendarDays) :
    ((distinctMonthCount (df.filter (fun r => r.availability_typical)) < 12
        ∨ distinctMonthCount (df.filter (fun r => r.curtailment_typical)) < 12)
      → ∃ e, calculate_long_term_losses "M" df = Except.error e)
    ∧ (distinctMonthCount (df.filter (fun r => r.availability_typical)) = 12
      → distinctMonthCount (df.filter (fun r => r.curtailment_typical)) = 12
      → ∃ q, calculate_long_term_losses "M" df = Except.ok q)
    ∧ ((distinctDayCount (df.filter (fun r => r.availability_typical)) < 366
        ∨ distinctDayCount (df.filter (fun r => r.curtailment_typical)) < 366)
      → ∃ e, calculate_long_term_losses "D" df = Except.error e)
    ∧ (distinctDayCount (df.filter (fun r => r.availability_typical)) = 366
      → distinctDayCount (df.filter (fun r => r.curtailment_typical)) = 366
      → ∃ q, calculate_long_term_losses "D" df = Except.ok q) := by
  have hm : ∀ r ∈ df, r.date.month ∈ monthsList :=
    fun r hr => mem_calendarDays_month (hdates r hr)
  have haM := availLongTermM_length df hm
  have hcM := curtLongTermM_length df hm
  have haD := availLongTermD_length df hdates
  have hcD := curtLongTermD_length df hdates
  have hDM : ¬ (("D" : String) = "M") := by decide
  refine ⟨?_, ?_, ?_, ?_⟩
  · intro h
    unfold calculate_long_term_losses
    rw [if_pos rfl]
    by_cases ha : (availLongTermM df).length ≠ 12
    · rw [if_pos ha]
      exact ⟨_, rfl⟩
    · have hc : (curtLongTermM df).length ≠ 12 := by
        rw [hcM]
        rw [haM] at ha
        rcases h with h | h <;> omega
      rw [if_neg ha, if_pos hc]
      exact ⟨_, rfl⟩
  · intro h1 h2
    unfold calculate_long_term_losses
    rw [if_pos rfl]
    rw [if_neg (by rw [haM, h1]; omega), if_neg (by rw [hcM, h2]; omega)]
    exact ⟨_, rfl⟩
  · intro h
    unfold calculate_long_term_losses
    rw [if_neg hDM, if_pos rfl]
    by_cases ha : (availLongTermD df).length ≠ 366
    · rw [if_pos ha]
      exact ⟨_, rfl⟩
    · have hc : (curtLongTermD df).length ≠ 366 := by
        rw [hcD]
        rw [haD] at ha
        rcases h with h | h <;> omega
      rw [if_neg ha, if_pos hc]
      exact ⟨_, rfl⟩
  · intro h1 h2
    unfold calculate_long_term_losses
    rw [if_neg hDM, if_pos rfl]
    rw [if_neg (by rw [haD, h1]; omega), if_neg (by rw [hcD, h2]; omega)]
    exact ⟨_, rfl⟩

/-- A row of the full-coverage operating table used by witnesses: one
typical row per valid calendar day. -/
def mkRowW (k : ℕ × ℕ) : OperatingRow := { rowW with date := ⟨k.1, k.2⟩ }

/-- A witness operating table with one row for each of the 366 valid
calendar days. -/
def dfW366 : List OperatingRow := calendarDays.map mkRowW

theorem long_term_losses_coverage_witness :
    ((distinctMonthCount (dfW366.filter (fun r => r.availability_typical)) < 12
        ∨ distinctMonthCount (dfW366.filter (fun r => r.curtailment_typical)) < 12)
      → ∃ e, calculate_long_term_losses "M" dfW366 = Except.error e)
    ∧ (distinctMonthCount (dfW366.filter (fun r => r.availability_typical)) = 12
      → distinctMonthCount (dfW366.filter (fun r => r.curtailment_typical)) = 12
      → ∃ q, calculate_long_term_losses "M" dfW366 = Except.ok q)
    ∧ ((distinctDayCount (dfW366.filter (fun r => r.availability_typical)) < 366
        ∨ distinctDayCount (dfW366.filter (fun r => r.curtailment_typical)) < 366)
      → ∃ e, calculate_long_term_losses "D" dfW366 = Except.error e)
    ∧ (distinctDayCount (dfW366.filter (fun r => r.availability_typical)) = 366
      → distinctDayCount (dfW366.filter (fun r => r.curtailment_typical)) = 366
      → ∃ q, calculate_long_term_losses "D" dfW366 = Except.ok q) :=
  long_term_losses_coverage dfW366 (by
    intro r hr
    rw [dfW366, List.mem_map] at hr
    obtain ⟨k, hk, rfl⟩ := hr
    simpa [mkRowW] using hk)

/-- Follows the spec's words (4.3): mean loss percentage, among the rows a
selector flags as typical, for one calendar month. -/
def specMonthlyMean (sel : OperatingRow → Bool) (pct : OperatingRow → ℚ)
    (df : List OperatingRow) (m : ℕ) : ℚ :=
  listMean (((df.filter sel).filter (fun r => decide (r.date.month = m))).map pct)

/-- Follows the spec's words (4.3): the annualized monthly loss — the sum
over the 12 calendar months of (that month's mean loss percentage times
the fixed days-per-month weight, February weighted 28.25), divided by
365.25. -/
def specAnnualMonthly (sel : OperatingRow → Bool) (pct : OperatingRow → ℚ)
    (df : List OperatingRow) : ℚ :=
  (List.zipWith (fun m w => specMonthlyMean sel pct df m * w) monthsList
    [31, 28.25, 31, 30, 31, 30, 31, 31, 30, 31, 30, 31]).sum / 365.25

/-- Follows the spec's words (4.3): mean loss percentage for one calendar
(month, day) key among the typical rows. -/
def specDailyMean (sel : OperatingRow → Bool) (pct : OperatingRow → ℚ)
    (df : List OperatingRow) (k : ℕ × ℕ) : ℚ :=
  listMean (((df.filter sel).filter
    (fun r => decide ((r.date.month, r.date.day) = k))).map pct)

/-- Follows the spec's words (4.3): the annualized daily loss — the sum of
the 366 per-calendar-day mean loss percentages divided by 365.25. -/
def specAnnualDaily (sel : OperatingRow → Bool) (pct : OperatingRow → ℚ)
    (df : List OperatingRow) : ℚ :=
  (calendarDays.map (fun k => specDailyMean sel pct df k)).sum / 365.25

lemma map_congr' {α β : Type} (l : List α) (f g : α → β) (h : ∀ a ∈ l, f a = g a) :
    l.map f = l.map g := by
  induction l with
  | nil => rfl
  | cons a t ih =>
    simp only [List.map]
    rw [h a (List.mem_cons_self a t), ih (fun x hx => h x (List.mem_cons_of_mem a hx))]

lemma grouped_mean_eq {K : Type} [DecidableEq K] (l : List OperatingRow)
    (f : OperatingRow → Date × ℚ) (g : Date × ℚ → K × ℚ) (k : K) :
    listMean ((((l.map f).map g).filter (fun p => decide (p.1 = k))).map Prod.snd)
      = listMean ((l.filter (fun r => decide ((g (f r)).1 = k))).map (fun r => (g (f r)).2)) := by
  rw [List.map_map, filter_map_comm, List.map_map]
  rfl

/-- C6: given full calendar coverage of the typical-flagged rows, the
monthly-mode annualized long-term loss equals the sum over the 12 calendar
months of (that month's mean loss percentage times the days-in-month
weight, February weighted 28.25) divided by 365.25, and the daily-mode
value equals the sum of the 366 per-calendar-day mean loss percentages
divided by 365.25, for availability and curtailment alike. -/
theorem long_term_losses_formula (df : List OperatingRow)
    (hAm : ∀ m ∈ monthsList, ∃ r ∈ df, r.availability_typical = true ∧ r.date.month = m)
    (hCm : ∀ m ∈ monthsList, ∃ r ∈ df, r.curtailment_typical = true ∧ r.date.month = m)
    (hAd : ∀ k ∈ calendarDays, ∃ r ∈ df,
      r.availability_typical = true ∧ (r.date.month, r.date.day) = k)
    (hCd : ∀ k ∈ calendarDays, ∃ r ∈ df,
      r.curtailment_typical = true ∧ (r.date.month, r.date.day) = k) :
    calculate_long_term_losses "M" df
        = Except.ok
            (specAnnualMonthly (fun r => r.availability_typical)
              (fun r => r.availability_pct) df,
             specAnnualMonthly (fun r => r.curtailment_typical)
              (fun r => r.curtailment_pct) df)
      ∧ calculate_long_term_losses "D" df
        = Except.ok
            (specAnnualDaily (fun r => r.availability_typical)
              (fun r => r.availability_pct) df,
             specAnnualDaily (fun r => r.curtailment_typical)
              (fun r => r.curtailment_pct) df) := by
  have covAm : ∀ m ∈ monthsList,
      ∃ p ∈ (availValid df).map (fun p => (p.1.month, p.2)), p.1 = m := by
    intro m hm
    obtain ⟨r, hr, htyp, hmon⟩ := hAm m hm
    refine ⟨(r.date.month, r.availability_pct), ?_, hmon⟩
    unfold availValid
    rw [List.map_map]
    exact List.mem_map.mpr ⟨r, List.mem_filter.mpr ⟨hr, htyp⟩, rfl⟩
  have covCm : ∀ m ∈ monthsList,
      ∃ p ∈ (curtValid df).map (fun p => (p.1.month, p.2)), p.1 = m := by
    intro m hm
    obtain ⟨r, hr, htyp, hmon⟩ := hCm m hm
    refine ⟨(r.date.month, r.curtailment_pct), ?_, hmon⟩
    unfold curtValid
    rw [List.map_map]
    exact List.mem_map.mpr ⟨r, List.mem_filter.mpr ⟨hr, htyp⟩, rfl⟩
  have covAd : ∀ k ∈ calendarDays,
      ∃ p ∈ (availValid df).map (fun p => ((p.1.month, p.1.day), p.2)), p.1 = k := by
    intro k hk
    obtain ⟨r, hr, htyp, hkey⟩ := hAd k hk
    refine ⟨((r.date.month, r.date.day), r.availability_pct), ?_, hkey⟩
    unfold availValid
    rw [List.map_map]
    exact List.mem_map.mpr ⟨r, List.mem_filter.mpr ⟨hr, htyp⟩, rfl⟩
  have covCd : ∀ k ∈ calendarDays,
      ∃ p ∈ (curtValid df).map (fun p => ((p.1.month, p.1.day), p.2)), p.1 = k := by
    intro k hk
    obtain ⟨r, hr, htyp, hkey⟩ := hCd k hk
    refine ⟨((r.date.month, r.date.day), r.curtailment_pct), ?_, hkey⟩
    unfold curtValid
    rw [List.map_map]
    exact List.mem_map.mpr ⟨r, List.mem_filter.mpr ⟨hr, htyp⟩, rfl⟩
  have hAMc : availLongTermM df = monthsList.map (fun m => (m, listMean
      (((((df.filter (fun r => r.availability_typical)).map
            (fun r => (r.date, r.availability_pct))).map
          (fun p => (p.1.month, p.2))).filter (fun p => decide (p.1 = m))).map Prod.snd))) := by
    unfold availLongTermM
    have h := groupMeans_complete monthsList
      ((availValid df).map (fun p => (p.1.month, p.2))) covAm
    rw [h]
    rfl
  have hCMc : curtLongTermM df = monthsList.map (fun m => (m, listMean
      (((((df.filter (fun r => r.curtailment_typical)).map
            (fun r => (r.date, r.curtailment_pct))).map
          (fun p => (p.1.month, p.2))).filter (fun p => decide (p.1 = m))).map Prod.snd))) := by
    unfold curtLongTermM
    have h := groupMeans_complete monthsList
      ((curtValid df).map (fun p => (p.1.month, p.2))) covCm
    rw [h]
    rfl
  have hADc : availLongTermD df = calendarDays.map (fun k => (k, listMean
      (((((df.filter (fun r => r.availability_typical)).map
            (fun r => (r.date, r.availability_pct))).map
          (fun p => ((p.1.month, p.1.day), p.2))).filter
            (fun p => decide (p.1 = k))).map Prod.snd))) := by
    unfold availLongTermD
    have h := groupMeans_complete calendarDays
      ((availValid df).map (fun p => ((p.1.month, p.1.day), p.2))) covAd
    rw [h]
    rfl
  have hCDc : curtLongTermD df = calendarDays.map (fun k => (k, listMean
      (((((df.filter (fun r => r.curtailment_typical)).map
            (fun r => (r.date, r.curtailment_pct))).map
          (fun p => ((p.1.month, p.1.day), p.2))).filter
            (fun p => decide (p.1 = k))).map Prod.snd))) := by
    unfold curtLongTermD
    have h := groupMeans_complete calendarDays
      ((curtValid df).map (fun p => ((p.1.month, p.1.day), p.2))) covCd
    rw [h]
    rfl
  have hAcode : (List.zipWith (fun p d => p.2 * d) (availLongTermM df) num_days_lt).sum
        / days_year_lt
      = specAnnualMonthly (fun r => r.availability_typical)
          (fun r => r.availability_pct) df := by
    have hspec : specAnnualMonthly (fun r => r.availability_typical)
        (fun r => r.availability_pct) df
        = (List.zipWith (fun m w => specMonthlyMean (fun r => r.availability_typical)
            (fun r => r.availability_pct) df m * w) monthsList num_days_lt).sum
          / days_year_lt := rfl
    rw [hspec, hAMc, zipWith_map_left']
    congr 1
    congr 1
    apply zipWith_congr_left
    intro a ha b
    rw [grouped_mean_eq]
    rfl
  have hCcode : (List.zipWith (fun p d => p.2 * d) (curtLongTermM df) num_days_lt).sum
        / days_year_lt
      = specAnnualMonthly (fun r => r.curtailment_typical)
          (fun r => r.curtailment_pct) df := by
    have hspec : specAnnualMonthly (fun r => r.curtailment_typical)
        (fun r => r.curtailment_pct) df
        = (List.zipWith (fun m w => specMonthlyMean (fun r => r.curtailment_typical)
            (fun r => r.curtailment_pct) df m * w) monthsList num_days_lt).sum
          / days_year_lt := rfl
    rw [hspec, hCMc, zipWith_map_left']
    congr 1
    congr 1
    apply zipWith_congr_left
    intro a ha b
    rw [grouped_mean_eq]
    rfl
  have hAcodeD : ((availLongTermD df).map Prod.snd).sum / days_year_lt
      = specAnnualDaily (fun r => r.availability_typical)
          (fun r => r.availability_pct) df := by
    have hspec : specAnnualDaily (fun r => r.availability_typical)
        (fun r => r.availability_pct) df
        = (calendarDays.map (fun k => specDailyMean (fun r => r.availability_typical)
            (fun r => r.availability_pct) df k)).sum / days_year_lt := rfl
    rw [hspec, hADc, List.map_map]
    congr 1
    congr 1
    apply map_congr'
    intro k hk
    rw [Function.comp_apply, grouped_mean_eq]
    rfl
  have hCcodeD : ((curtLongTermD df).map Prod.snd).sum / days_year_lt
      = specAnnualDaily (fun r => r.curtailment_typical)
          (fun r => r.curtailment_pct) df := by
    have hspec : specAnnualDaily (fun r => r.curtailment_typical)
        (fun r => r.curtailment_pct) df
        = (calendarDays.map (fun k => specDailyMean (fun r => r.curtailment_typical)
            (fun r => r.curtailment_pct) df k)).sum / days_year_lt := rfl
    rw [hspec, hCDc, List.map_map]
    congr 1
    congr 1
    apply map_congr'
    intro k hk
    rw [Function.comp_apply, grouped_mean_eq]
    rfl
  constructor
  · unfold calculate_long_term_losses
    rw [if_pos rfl,
      if_neg (by rw [hAMc, List.length_map]; decide),
      if_neg (by rw [hCMc, List.length_map]; decide)]
    rw [hAcode, hCcode]
  · unfold calculate_long_term_losses
    rw [if_neg (by decide : ¬ (("D" : String) = "M")), if_pos rfl,
      if_neg (by rw [hADc, List.length_map]; decide),
      if_neg (by rw [hCDc, List.length_map]; decide)]
    rw [hAcodeD, hCcodeD]

theorem long_term_losses_formula_witness :
    calculate_long_term_losses "M" dfW366
        = Except.ok
            (specAnnualMonthly (fun r => r.availability_typical)
              (fun r => r.availability_pct) dfW366,
             specAnnualMonthly (fun r => r.curtailment_typical)
              (fun r => r.curtailment_pct) dfW366)
      ∧ calculate_long_term_losses "D" dfW366
        = Except.ok
            (specAnnualDaily (fun r => r.availability_typical)
              (fun r => r.availability_pct) dfW366,
             specAnnualDaily (fun r => r.curtailment_typical)
              (fun r => r.curtailment_pct) dfW366) :=
  long_term_losses_formula dfW366
    (fun m hm => ⟨mkRowW (m, 1), List.mem_map_of_mem mkRowW (month_day_one_mem hm), rfl, rfl⟩)
    (fun m hm => ⟨mkRowW (m, 1), List.mem_map_of_mem mkRowW (month_day_one_mem hm), rfl, rfl⟩)
    (fun k hk => ⟨mkRowW k, List.mem_map_of_mem mkRowW hk, rfl, Prod.mk.eta⟩)
    (fun k hk => ⟨mkRowW k, List.mem_map_of_mem mkRowW hk, rfl, Prod.mk.eta⟩)
